import Mathlib

/-!
Verification of the command-line utility layer of the `ffsend` client
(`src/cli/src/util.rs`).

Shallow embedding conventions:
* Standard input is a finite list of lines (without trailing newlines);
  reading past the end behaves like EOF, i.e. yields the empty string,
  exactly as Rust's `read_line` does.
* Everything printed is collected as a list of `OutLine` values, tagged with
  the stream it went to.  Terminal colouring (`.red()`, `.yellow()`, ...) is
  dropped: only the text matters here.
* A routine either returns a value (together with the unread rest of stdin
  and the lines it printed) or terminates the whole process with an exit
  code (`CliOutcome.exit`).
* The two unbounded re-prompting loops (`prompt_yes`, `ensure_owner_token`)
  are embedded with explicit fuel; `none` means the fuel ran out, i.e. the
  loop was still running after that many iterations.
* `f64` arithmetic in `format_bytes` is modelled exactly: the `u64 -> f64`
  cast is `to_f64` (round to 53 significant bits, ties to even; the
  identity below `2^53`), after which every step the program performs on
  the resulting dyadic rational is exact: dividing by a power of two only
  shifts the exponent, comparisons are exact, and Rust's fixed-precision
  formatting rounds the exact decimal value of the double to nearest with
  ties to even, which is `roundHalfEven`.
-/

/-- A line printed by the program, tagged with the stream it was written to. -/
inductive OutLine where
  /-- A line written to standard output. -/
  | out (line : String)
  /-- A line written to standard error. -/
  | err (line : String)
deriving DecidableEq, Repr

/-- Result of running one of the CLI routines: either it returns a value,
together with the remaining (unread) stdin lines and everything printed, or
the process terminated with an exit code after printing some lines. -/
inductive CliOutcome (α : Type) where
  /-- Normal return. -/
  | ret (val : α) (stdin : List String) (output : List OutLine)
  /-- The process terminated via `exit(code)`. -/
  | exit (code : Nat) (output : List OutLine)
deriving DecidableEq, Repr

/-- Prepend earlier printed lines to an outcome's output. -/
def CliOutcome.prepend {α : Type} (pre : List OutLine) : CliOutcome α → CliOutcome α
  | .ret v s o => .ret v s (pre ++ o)
  | .exit c o => .exit c (pre ++ o)

/-- Modelled from the spec: the caller-supplied "main matcher" collaborator
(`cmd::matcher::MainMatcher`, not part of the given sources) exposing three
boolean queries: whether interactive prompting is disallowed
(`no_interact`), whether a default "assume yes" answer is forced
(`assume_yes`), and whether failure should be forced past certain guards
(`force`). -/
structure MainMatcher where
  no_interact : Bool
  assume_yes : Bool
  force : Bool
deriving DecidableEq, Repr

/-- Model of Rust's `str::trim`: remove leading and trailing whitespace. -/
def rust_trim (s : String) : String :=
  ⟨(((s.data.dropWhile Char.isWhitespace).reverse).dropWhile Char.isWhitespace).reverse⟩

/-- Model of Rust's `str::to_lowercase` (restricted to the ASCII simple
case mapping, which covers every input the program compares against). -/
def rust_to_lowercase (s : String) : String :=
  ⟨s.data.map Char.toLower⟩

/-- Model of Rust's `str::starts_with` for a string pattern. -/
def starts_with (s pat : String) : Bool :=
  pat.data.isPrefixOf s.data

/-- Read one line from stdin.  Reading at EOF yields the empty string, like
Rust's `read_line`. -/
def read_line : List String → String × List String
  | [] => ("", [])
  | l :: ls => (l, ls)

/-- `print_success`: print the message (in green) on standard output. -/
def print_success (msg : String) : List OutLine :=
  [.out msg]

/-- The lines `print_error` writes to standard error, given the formatted
messages of the error's cause chain (the error itself first, as produced by
`Fail::causes`).  Mirrors the source: non-empty messages are enumerated,
the first gets the `error:` prefix and later ones `caused by:`; if none
were printed a generic message is emitted. -/
def print_error_lines (causes : List String) : List String :=
  let reported := (causes.filter (fun e => !e.isEmpty)).enum.map
    (fun ie => if ie.1 = 0 then "error: " ++ ie.2 else "caused by: " ++ ie.2)
  reported ++ (if reported.length = 0 then ["error: An undefined error occurred"] else [])

/-- `print_error`, as output lines (all on standard error). -/
def print_error (causes : List String) : List OutLine :=
  (print_error_lines causes).map .err

/-- The error hint configuration. -/
structure ErrorHints where
  password : Bool
  owner : Bool
  history : Bool
  force : Bool
  verbose : Bool
  help : Bool
deriving DecidableEq, Repr

/-- `ErrorHints::any`: whether any hint should be printed. -/
def ErrorHints.any (h : ErrorHints) : Bool :=
  h.password || h.owner || h.history || h.force || h.verbose || h.help

/-- `highlight`: colours the text yellow; the text itself is unchanged. -/
def highlight (msg : String) : String := msg

/-- `ErrorHints::print`: the lines printed to standard error (an empty
line first, then one line per enabled hint, in source order). -/
def ErrorHints.print (h : ErrorHints) : List OutLine :=
  if !h.any then [] else
    [OutLine.err ""]
    ++ (if h.password then
          [OutLine.err ("Use '" ++ highlight "--password <PASSWORD>" ++ "' to specify a password")]
        else [])
    ++ (if h.owner then
          [OutLine.err ("Use '" ++ highlight "--owner <TOKEN>" ++ "' to specify an owner token")]
        else [])
    ++ (if h.history then
          [OutLine.err ("Use '" ++ highlight "--history <FILE>" ++ "' to specify a history file")]
        else [])
    ++ (if h.force then
          [OutLine.err ("Use '" ++ highlight "--force" ++ "' to force")]
        else [])
    ++ (if h.verbose then
          [OutLine.err ("For detailed errors try '" ++ highlight "--verbose" ++ "'")]
        else [])
    ++ (if h.help then
          [OutLine.err ("For more information try '" ++ highlight "--help" ++ "'")]
        else [])

/-- `Default for ErrorHints`: only `verbose` and `help` enabled.
`ErrorHintsBuilder::default()` (with the struct-level `#[builder(default)]`)
starts from this value, so builder call sites are embedded as record
updates of this default. -/
def ErrorHints.default : ErrorHints :=
  { password := false, owner := false, history := false,
    force := false, verbose := true, help := true }

/-- `quit`: exit the process regularly (exit code 0), printing nothing. -/
def quit {α : Type} : CliOutcome α :=
  .exit 0 []

/-- `quit_error`: print the error's cause chain, then the hints, then exit
with code 1. -/
def quit_error {α : Type} (causes : List String) (hints : ErrorHints) : CliOutcome α :=
  .exit 1 (print_error causes ++ hints.print)

/-- `quit_error_msg`: `quit_error` on `err_msg(err)`, whose cause chain is
the single message `err`. -/
def quit_error_msg {α : Type} (err : String) (hints : ErrorHints) : CliOutcome α :=
  quit_error [err] hints

/-- `check_empty_password`: quit with an error (hinting at `--force`)
when the password is empty and force mode is off; otherwise do nothing. -/
def check_empty_password (password : String) (matcher_main : MainMatcher)
    (stdin : List String) : CliOutcome Unit :=
  if !matcher_main.force && password.isEmpty then
    quit_error_msg "An empty password is not supported by the web interface"
      { ErrorHints.default with force := true, verbose := false }
  else
    .ret () stdin []

/-- `prompt_password`: in no-interact mode quit with an error; otherwise
read a password from stdin (prompting on stderr via `rpassword`). -/
def prompt_password (main_matcher : MainMatcher) (stdin : List String) : CliOutcome String :=
  if main_matcher.no_interact then
    quit_error_msg "Missing password, must be specified in no-interact mode"
      { ErrorHints.default with password := true, verbose := false }
  else
    let r := read_line stdin
    .ret r.1 r.2 [.err "Password: "]

/-- `ensure_password`: make `password` agree with `needs`; prompt when a
password is needed but missing, clear it (with a notice) when present but
not needed. -/
def ensure_password (password : Option String) (needs : Bool)
    (main_matcher : MainMatcher) (stdin : List String) : CliOutcome (Option String) :=
  if password.isSome == needs then
    .ret password stdin []
  else if needs then
    match prompt_password main_matcher stdin with
    | .exit c out => .exit c (.out "This file is protected with a password." :: out)
    | .ret p stdin' out => .ret (some p) stdin' (.out "This file is protected with a password." :: out)
  else
    .ret none stdin [.out "Ignoring password, it is not required"]

/-- `prompt`: in no-interact mode quit with an error; otherwise print the
prompt on stderr, read a line and return it trimmed. -/
def prompt (msg : String) (main_matcher : MainMatcher) (stdin : List String) : CliOutcome String :=
  if main_matcher.no_interact then
    quit_error_msg ("Could not prompt for '" ++ msg ++ "' in no-interact mode, maybe specify it")
      ErrorHints.default
  else
    let r := read_line stdin
    .ret (rust_trim r.1) r.2 [.err (msg ++ ": ")]

/-- `derive_bool`: derive a yes/no answer from free-form input. -/
def derive_bool (input : String) : Option Bool :=
  let inp := rust_to_lowercase (rust_trim input)
  if inp = "y" ∨ inp = "ye" ∨ inp = "t" ∨ inp = "1" then some true
  else if inp = "n" ∨ inp = "f" ∨ inp = "0" then some false
  else if starts_with inp "yes" || starts_with inp "true" then some true
  else if starts_with inp "no" || starts_with inp "false" then some false
  else none

/-- The `[y/n]` options string of `prompt_yes`, capitalising the default. -/
def prompt_yes_options (dflt : Option Bool) : String :=
  "[" ++ (match dflt with | some true => "Y" | _ => "y") ++ "/"
      ++ (match dflt with | some false => "N" | _ => "n") ++ "]"

/-- `prompt_yes`: ask a yes/no question.  In assume-yes mode answer yes; in
no-interact mode take the default or quit; otherwise prompt, take the
default on empty input, and re-prompt (recursively, here bounded by `fuel`)
while the answer cannot be parsed. -/
def prompt_yes (fuel : Nat) (msg : String) (dflt : Option Bool)
    (main_matcher : MainMatcher) (stdin : List String) : Option (CliOutcome Bool) :=
  match fuel with
  | 0 => none
  | fuel + 1 =>
    let options := prompt_yes_options dflt
    if main_matcher.assume_yes then
      some (.ret true stdin [.err (msg ++ " " ++ options ++ ": yes")])
    else if main_matcher.no_interact then
      match dflt with
      | some d =>
        some (.ret d stdin [.err (msg ++ " " ++ options ++ ": " ++ (if d then "yes" else "no"))])
      | none =>
        some (quit_error_msg
          ("Could not prompt question '" ++ msg ++ "' in no-interact mode, maybe specify it")
          ErrorHints.default)
    else
      match prompt (msg ++ " " ++ options) main_matcher stdin with
      | .exit c out => some (.exit c out)
      | .ret answer stdin' out =>
        if answer.isEmpty && dflt.isSome then
          some (.ret (dflt.getD false) stdin' out)
        else
          match derive_bool answer with
          | some b => some (.ret b stdin' out)
          | none => (prompt_yes fuel msg dflt main_matcher stdin').map (.prepend out)

/-- `prompt_owner_token`: prompt for an owner token. -/
def prompt_owner_token (main_matcher : MainMatcher) (stdin : List String) : CliOutcome String :=
  prompt "Owner token" main_matcher stdin

/-- The stderr line rejecting an empty owner token. -/
def empty_token_line : String :=
  "Empty owner token given, which is invalid. Use " ++ highlight "[CTRL+C]" ++ " to cancel."

/-- The loop body of `ensure_owner_token`, one fuel unit per iteration:
when the token is unset, prompt for it (or quit in no-interact mode); an
empty token is rejected with a message, cleared and re-prompted. -/
def ensure_owner_token_go (main_matcher : MainMatcher) :
    Nat → Option String → List String → Option (CliOutcome String)
  | 0, _, _ => none
  | fuel + 1, none, stdin =>
    if !main_matcher.no_interact then
      match prompt_owner_token main_matcher stdin with
      | .exit c out => some (.exit c out)
      | .ret t stdin' out =>
        if t.isEmpty then
          (ensure_owner_token_go main_matcher fuel none stdin').map
            (.prepend (out ++ [.err empty_token_line]))
        else some (.ret t stdin' out)
    else
      some (quit_error_msg "Missing owner token, must be specified in no-interact mode"
        { ErrorHints.default with owner := true, verbose := false })
  | fuel + 1, some t, stdin =>
    if t.isEmpty then
      (ensure_owner_token_go main_matcher fuel none stdin).map (.prepend [.err empty_token_line])
    else some (.ret t stdin [])

/-- `ensure_owner_token`: announce that a token is required (when
interactive and unset), then run the retry loop.  The returned string is
the final, ensured token value. -/
def ensure_owner_token (fuel : Nat) (token : Option String)
    (main_matcher : MainMatcher) (stdin : List String) : Option (CliOutcome String) :=
  let interact := !main_matcher.no_interact
  let intro : List OutLine :=
    if interact && token.isNone then
      [.out "The file owner token is required for authentication."]
    else []
  (ensure_owner_token_go main_matcher fuel token stdin).map (.prepend intro)

/-- Round a rational to the nearest integer, ties to even: the rounding of
Rust's fixed-precision float formatting. -/
def roundHalfEven (q : ℚ) : ℤ :=
  let f : ℤ := ⌊q⌋
  let r : ℚ := q - (f : ℚ)
  if r < 1 / 2 then f
  else if 1 / 2 < r then f + 1
  else if f % 2 = 0 then f else f + 1

/-- Two-digit zero-padding for the fractional part. -/
def pad2 (n : ℕ) : String :=
  if n < 10 then "0" ++ toString n else toString n

/-- Rust's `format!("{:.2}", q)` for a non-negative value: round to two
decimal places (ties to even) and render with exactly two fraction
digits. -/
def renderDec2 (q : ℚ) : String :=
  let n : ℕ := (roundHalfEven (q * 100)).toNat
  toString (n / 100) ++ "." ++ pad2 (n % 100)

/-- Rust's `format!("{:.0}", q)` for a non-negative value: round to an
integer (ties to even) and render it. -/
def renderDec0 (q : ℚ) : String :=
  toString (roundHalfEven q).toNat

/-- Floor of the base-2 logarithm (0 at 0), with an explicit fuel argument
so that it is structurally recursive and kernel-computable. -/
def floorLog2Aux : ℕ → ℕ → ℕ
  | 0, _ => 0
  | fuel + 1, n => if n ≤ 1 then 0 else floorLog2Aux fuel (n / 2) + 1

/-- Floor of the base-2 logarithm of a positive number. -/
def floorLog2 (n : ℕ) : ℕ := floorLog2Aux n n

/-- Model of Rust's `bytes as f64` cast for a `u64`: round the integer to
53 significant bits, to nearest with ties to even.  Below `2^53` the cast
is exact; above, the value is rounded to the nearest multiple of the unit
in the last place `2^(⌊log2 n⌋ - 52)`, ties going to the even multiple.
Every `u64` is far below the `f64` overflow threshold, so no further
clamping occurs. -/
def to_f64 (n : ℕ) : ℕ :=
  if n < 2 ^ 53 then n
  else
    let ulp := 2 ^ (floorLog2 n - 52)
    let q := n / ulp
    let r := n % ulp
    if r < ulp / 2 then q * ulp
    else if ulp / 2 < r then (q + 1) * ulp
    else if q % 2 = 0 then q * ulp else (q + 1) * ulp

/-- `format_bytes`: format a byte count human-readably, choosing the
largest binary unit the value reaches.  `bytes as f64` is `to_f64`; the
subsequent f64 divisions by powers of two and comparisons are exact, so
they are carried out on the exact value of the double. -/
def format_bytes (bytes : ℕ) : String :=
  let b : ℚ := to_f64 bytes
  let kb : ℚ := 1024
  if b ≥ kb ^ 4 then renderDec2 (b / kb ^ 4) ++ " TiB"
  else if b ≥ kb ^ 3 then renderDec2 (b / kb ^ 3) ++ " GiB"
  else if b ≥ kb ^ 2 then renderDec2 (b / kb ^ 2) ++ " MiB"
  else if b ≥ kb then renderDec2 (b / kb) ++ " KiB"
  else renderDec0 b ++ " B"

/-- Spec-side unit table for `format_bytes`: each binary unit's size in
bytes together with its rendered suffix, largest unit first. -/
def byteUnits : List (ℚ × String) :=
  [(1024 ^ 4, " TiB"), (1024 ^ 3, " GiB"), (1024 ^ 2, " MiB"), (1024, " KiB")]

/-- Spec-side reformulation of `format_bytes` following the amended
claim's words: the value is the byte count as converted to f64; select the
largest unit for which that value scaled by the unit is at least 1 and
render the scaled value to two decimal places; with no such unit, render
the whole number of bytes. -/
def format_bytes_spec (n : ℕ) : String :=
  match byteUnits.find? (fun u => decide (1 ≤ (to_f64 n : ℚ) / u.1)) with
  | some u => renderDec2 ((to_f64 n : ℚ) / u.1) ++ u.2
  | none => renderDec0 (to_f64 n : ℚ) ++ " B"

/-- The original claim's rendering, written exactly as the claim states
it: the exact byte count (not its f64 approximation) is scaled by the
largest fitting unit and rounded to two decimal places. -/
def format_bytes_claim (n : ℕ) : String :=
  match byteUnits.find? (fun u => decide (1 ≤ (n : ℚ) / u.1)) with
  | some u => renderDec2 ((n : ℚ) / u.1) ++ u.2
  | none => renderDec0 (n : ℚ) ++ " B"

/-- Rounding (ties to even) of an exact integer is that integer. -/
theorem roundHalfEven_intCast (n : ℤ) : roundHalfEven ((n : ℚ)) = n := by
  unfold roundHalfEven
  norm_num

/-- Claim C1, counterexample: at the u64 byte count 9007380674159575
(odd, between 2^53 and 2^54) the `bytes as f64` cast rounds half-to-even
up to 9007380674159576, and the program renders "8192.17 TiB"; the exact
count scaled by the TiB unit rounds to "8192.16 TiB" as the original claim
demands, so the claim fails at this input. -/
theorem format_bytes_claim_counterexample :
    format_bytes 9007380674159575 = "8192.17 TiB" ∧
    format_bytes_claim 9007380674159575 = "8192.16 TiB" ∧
    format_bytes 9007380674159575 ≠ format_bytes_claim 9007380674159575 := by
  have p4 : (0 : ℚ) < 1024 ^ 4 := by norm_num
  have hto : to_f64 9007380674159575 = 9007380674159576 := by decide
  have hcode : format_bytes 9007380674159575 = "8192.17 TiB" := by
    have step : format_bytes 9007380674159575 =
        renderDec2 (((9007380674159576 : ℕ) : ℚ) / 1024 ^ 4) ++ " TiB" := by
      simp only [format_bytes, hto, ge_iff_le]
      rw [if_pos (by norm_num)]
    rw [step]
    unfold renderDec2
    rw [show roundHalfEven (((9007380674159576 : ℕ) : ℚ) / 1024 ^ 4 * 100) = 819217 from by
      unfold roundHalfEven
      rw [show ⌊((9007380674159576 : ℕ) : ℚ) / 1024 ^ 4 * 100⌋ = 819216 from by
        rw [Int.floor_eq_iff]
        norm_num]
      norm_num]
    decide
  have hclaim : format_bytes_claim 9007380674159575 = "8192.16 TiB" := by
    have step : format_bytes_claim 9007380674159575 =
        renderDec2 (((9007380674159575 : ℕ) : ℚ) / 1024 ^ 4) ++ " TiB" := by
      simp only [format_bytes_claim, byteUnits]
      rw [List.find?_cons_of_pos _ (by simp [one_le_div p4]; norm_num)]
    rw [step]
    unfold renderDec2
    rw [show roundHalfEven (((9007380674159575 : ℕ) : ℚ) / 1024 ^ 4 * 100) = 819216 from by
      unfold roundHalfEven
      rw [show ⌊((9007380674159575 : ℕ) : ℚ) / 1024 ^ 4 * 100⌋ = 819216 from by
        rw [Int.floor_eq_iff]
        norm_num]
      norm_num]
    decide
  refine ⟨hcode, hclaim, ?_⟩
  rw [hcode, hclaim]
  decide

/-- Claim C1 (amended: the rendered value is the byte count after the
`u64 -> f64` conversion, which rounds to 53 significant bits ties-to-even
and is exact below 2^53): for every u64 byte count, `format_bytes` selects
the largest unit among B, KiB, MiB, GiB, TiB such that the converted value
scaled by that unit is at least 1, and renders that scaled value rounded
to 2 decimal places (0 decimal places for the B unit); in particular
`format_bytes 1536 = "1.50 KiB"` and `format_bytes 0 = "0 B"`. -/
theorem format_bytes_correct :
    (∀ n : ℕ, format_bytes n = format_bytes_spec n) ∧
    format_bytes 1536 = "1.50 KiB" ∧ format_bytes 0 = "0 B" := by
  have p4 : (0 : ℚ) < 1024 ^ 4 := by norm_num
  have p3 : (0 : ℚ) < 1024 ^ 3 := by norm_num
  have p2 : (0 : ℚ) < 1024 ^ 2 := by norm_num
  have p1 : (0 : ℚ) < 1024 := by norm_num
  refine ⟨fun n => ?_, ?_, ?_⟩
  · simp only [format_bytes, format_bytes_spec, byteUnits, ge_iff_le]
    generalize (to_f64 n : ℚ) = v
    by_cases h4 : (1024 : ℚ) ^ 4 ≤ v
    · rw [List.find?_cons_of_pos _ (by simp [one_le_div p4, h4])]
      simp [h4]
    · rw [List.find?_cons_of_neg _ (by simp [one_le_div p4, h4])]
      by_cases h3 : (1024 : ℚ) ^ 3 ≤ v
      · rw [List.find?_cons_of_pos _ (by simp [one_le_div p3, h3])]
        simp [h4, h3]
      · rw [List.find?_cons_of_neg _ (by simp [one_le_div p3, h3])]
        by_cases h2 : (1024 : ℚ) ^ 2 ≤ v
        · rw [List.find?_cons_of_pos _ (by simp [one_le_div p2, h2])]
          simp [h4, h3, h2]
        · rw [List.find?_cons_of_neg _ (by simp [one_le_div p2, h2])]
          by_cases h1 : (1024 : ℚ) ≤ v
          · rw [List.find?_cons_of_pos _ (by simp [one_le_div p1, h1])]
            simp [h4, h3, h2, h1]
          · rw [List.find?_cons_of_neg _ (by simp [one_le_div p1, h1])]
            simp [h4, h3, h2, h1, List.find?]
  · have hconv : to_f64 1536 = 1536 := by decide
    have step : format_bytes 1536 = renderDec2 (((1536 : ℕ) : ℚ) / 1024) ++ " KiB" := by
      simp only [format_bytes, hconv, ge_iff_le]
      norm_num
    rw [step]
    have harg : ((1536 : ℕ) : ℚ) / 1024 * 100 = ((150 : ℤ) : ℚ) := by norm_num
    unfold renderDec2
    rw [harg, roundHalfEven_intCast]
    decide
  · have hconv : to_f64 0 = 0 := by decide
    have step : format_bytes 0 = renderDec0 ((0 : ℕ) : ℚ) ++ " B" := by
      simp only [format_bytes, hconv, ge_iff_le]
      norm_num
    rw [step]
    have harg : ((0 : ℕ) : ℚ) = ((0 : ℤ) : ℚ) := by norm_num
    unfold renderDec0
    rw [harg, roundHalfEven_intCast]
    decide

/-- Spec-side classifier for `derive_bool`, written exactly as the claim
states it: the input is case-folded (only), then matched against the listed
shorthands and the `yes`/`true` and `no`/`false` word classes. -/
def derive_bool_claim (input : String) : Option Bool :=
  let inp := rust_to_lowercase input
  if inp = "y" ∨ inp = "ye" ∨ inp = "t" ∨ inp = "1"
      ∨ starts_with inp "yes" = true ∨ starts_with inp "true" = true then some true
  else if inp = "n" ∨ inp = "f" ∨ inp = "0"
      ∨ starts_with inp "no" = true ∨ starts_with inp "false" = true then some false
  else none

/-- Claim C2, counterexample: the claim omits the trimming step.  On the
input `" y"` (leading space) the code answers `some true`, while the
claim's classification — which case-folds but does not trim — calls the
input indeterminate. -/
theorem derive_bool_claim_counterexample :
    derive_bool " y" = some true ∧ derive_bool_claim " y" = none ∧
    derive_bool " y" ≠ derive_bool_claim " y" := by
  refine ⟨by decide, by decide, by decide⟩

/-- Claim C2 (amended: the classification applies after trimming
surrounding whitespace and case-folding): for every input string,
`derive_bool` returns `some true` when the trimmed, case-folded input is
"y", "ye", "t" or "1" or begins with "yes" or "true"; `some false` when it
is "n", "f" or "0" or begins with "no" or "false"; and `none` (prompt
retry) for every other input. -/
theorem derive_bool_correct (s : String) :
    derive_bool s = derive_bool_claim (rust_trim s) := by
  simp only [derive_bool, derive_bool_claim]
  generalize rust_to_lowercase (rust_trim s) = x
  by_cases hA : x = "y" ∨ x = "ye" ∨ x = "t" ∨ x = "1"
  · rcases hA with h | h | h | h <;> subst h <;> decide
  · have nA := hA; push_neg at nA
    obtain ⟨n1, n2, n3, n4⟩ := nA
    by_cases hB : x = "n" ∨ x = "f" ∨ x = "0"
    · rcases hB with h | h | h <;> subst h <;> decide
    · have nB := hB; push_neg at nB
      obtain ⟨m1, m2, m3⟩ := nB
      by_cases hC : starts_with x "yes" = true ∨ starts_with x "true" = true
      · simp [n1, n2, n3, n4, m1, m2, m3, hC]
      · have nC := hC; push_neg at nC
        by_cases hD : starts_with x "no" = true ∨ starts_with x "false" = true
        · simp [n1, n2, n3, n4, m1, m2, m3, nC.1, nC.2, hD]
        · have nD := hD; push_neg at nD
          simp [n1, n2, n3, n4, m1, m2, m3, nC.1, nC.2, nD.1, nD.2]

/-- Claim C3: whenever the main matcher reports no-interact mode, every
call that requires prompting the user — `prompt`, `prompt_password`,
`prompt_yes` without a default (and without assume-yes, which would answer
for the user), and `ensure_owner_token` without a token — terminates the
process with exit code 1 instead of reading standard input. -/
theorem no_interact_no_prompt (m : MainMatcher) (h : m.no_interact = true) :
    (∀ msg stdin, prompt msg m stdin =
      .exit 1 (print_error ["Could not prompt for '" ++ msg ++ "' in no-interact mode, maybe specify it"]
        ++ ErrorHints.print ErrorHints.default)) ∧
    (∀ stdin, prompt_password m stdin =
      .exit 1 (print_error ["Missing password, must be specified in no-interact mode"]
        ++ ErrorHints.print { ErrorHints.default with password := true, verbose := false })) ∧
    (∀ fuel msg stdin, m.assume_yes = false →
      prompt_yes (fuel + 1) msg none m stdin =
        some (.exit 1 (print_error ["Could not prompt question '" ++ msg ++ "' in no-interact mode, maybe specify it"]
          ++ ErrorHints.print ErrorHints.default))) ∧
    (∀ fuel stdin, ensure_owner_token (fuel + 1) none m stdin =
      some (.exit 1 (print_error ["Missing owner token, must be specified in no-interact mode"]
        ++ ErrorHints.print { ErrorHints.default with owner := true, verbose := false }))) := by
  refine ⟨fun msg stdin => ?_, fun stdin => ?_, fun fuel msg stdin ha => ?_, fun fuel stdin => ?_⟩
  · simp [prompt, h, quit_error_msg, quit_error]
  · simp [prompt_password, h, quit_error_msg, quit_error]
  · simp [prompt_yes, h, ha, quit_error_msg, quit_error]
  · simp [ensure_owner_token, ensure_owner_token_go, h, quit_error_msg, quit_error,
      CliOutcome.prepend]

/-- Witness for C3 at a concrete no-interact matcher. -/
theorem no_interact_no_prompt_witness :
    prompt "id" ⟨true, false, false⟩ [] =
      .exit 1 (print_error ["Could not prompt for '" ++ "id" ++ "' in no-interact mode, maybe specify it"]
        ++ ErrorHints.print ErrorHints.default) ∧
    prompt_yes 1 "overwrite" none ⟨true, false, false⟩ [] =
      some (.exit 1 (print_error ["Could not prompt question '" ++ "overwrite" ++ "' in no-interact mode, maybe specify it"]
        ++ ErrorHints.print ErrorHints.default)) ∧
    ensure_owner_token 1 none ⟨true, false, false⟩ [] =
      some (.exit 1 (print_error ["Missing owner token, must be specified in no-interact mode"]
        ++ ErrorHints.print { ErrorHints.default with owner := true, verbose := false })) :=
  ⟨(no_interact_no_prompt ⟨true, false, false⟩ rfl).1 "id" [],
   (no_interact_no_prompt ⟨true, false, false⟩ rfl).2.2.1 0 "overwrite" [] rfl,
   (no_interact_no_prompt ⟨true, false, false⟩ rfl).2.2.2 0 []⟩

/-- Spec-side `print_error`, written as the claim states it: the top-level
message of the cause chain gets the `error:` prefix, every subsequent cause
the `caused by:` prefix, and the generic undefined-error message appears
exactly when the chain is empty. -/
def print_error_claim (causes : List String) : List String :=
  match causes with
  | [] => ["error: An undefined error occurred"]
  | e :: rest => ("error: " ++ e) :: rest.map (fun c => "caused by: " ++ c)

/-- Claim C4, counterexample: the code filters out causes whose message
formats to the empty string.  For an error with one empty-printing cause,
the chain is non-empty, yet the code prints the generic undefined-error
message where the claim demands `error: ` followed by nothing. -/
theorem print_error_claim_counterexample :
    print_error_lines [""] = ["error: An undefined error occurred"] ∧
    print_error_claim [""] = ["error: "] ∧
    print_error_lines [""] ≠ print_error_claim [""] :=
  ⟨by decide, by decide, by decide⟩

/-- Every enumerated entry after the first gets the `caused by:` prefix. -/
theorem enumFrom_caused_by (rest : List String) (i : ℕ) :
    (rest.enumFrom (i + 1)).map
        (fun ie => if ie.1 = 0 then "error: " ++ ie.2 else "caused by: " ++ ie.2)
      = rest.map (fun c => "caused by: " ++ c) := by
  induction rest generalizing i with
  | nil => simp
  | cons a l ih => simpa [List.enumFrom] using ih (i + 1)

/-- Claim C4 (amended: the cause chain is first filtered down to the causes
whose messages are non-empty): `print_error` prints the first non-empty
cause message prefixed `error:` and each subsequent non-empty cause
prefixed `caused by:`, and prints the generic message "An undefined error
occurred" (prefixed `error:`) exactly when the chain contains no non-empty
message. -/
theorem print_error_correct (causes : List String) :
    print_error_lines causes = print_error_claim (causes.filter (fun e => !e.isEmpty)) := by
  simp only [print_error_lines]
  cases hf : causes.filter (fun e => !e.isEmpty) with
  | nil => simp [hf, print_error_claim]
  | cons e rest =>
    simp only [hf, print_error_claim, List.enum, List.enumFrom, List.map]
    rw [show (0 : ℕ) + 1 = 1 from rfl] at *
    simp [enumFrom_caused_by rest 0]

/-- Trimming the empty string yields the empty string. -/
theorem rust_trim_empty : rust_trim "" = "" := rfl

/-- The empty string is empty. -/
theorem string_empty_isEmpty : ("" : String).isEmpty = true := rfl

/-- Unpacking `CliOutcome.prepend` through `Option.map`: a normal return
must come from a normal return with the same value and remaining input. -/
theorem map_prepend_ret {α : Type} {pre : List OutLine} {o : Option (CliOutcome α)}
    {v : α} {s : List String} {out : List OutLine}
    (h : o.map (CliOutcome.prepend pre) = some (.ret v s out)) :
    ∃ outRest, o = some (.ret v s outRest) ∧ out = pre ++ outRest := by
  cases o with
  | none => simp at h
  | some c =>
    cases c with
    | ret v' s' o' =>
      simp only [Option.map_some', CliOutcome.prepend, Option.some.injEq,
        CliOutcome.ret.injEq] at h
      exact ⟨o', by simp [h.1, h.2.1], h.2.2.symm⟩
    | exit c' o' => simp [CliOutcome.prepend] at h

/-- The `ensure_owner_token` loop only breaks with a non-empty token. -/
theorem ensure_owner_token_go_ret_nonempty (m : MainMatcher) :
    ∀ fuel token stdin t stdin' out,
      ensure_owner_token_go m fuel token stdin = some (.ret t stdin' out) →
      t.isEmpty = false := by
  intro fuel
  induction fuel with
  | zero => intro token stdin t s o h; simp [ensure_owner_token_go] at h
  | succ fuel ih =>
    intro token stdin t s o h
    cases token with
    | none =>
      by_cases hni : m.no_interact = true
      · simp [ensure_owner_token_go, hni, quit_error_msg, quit_error] at h
      · simp only [Bool.not_eq_true] at hni
        simp only [ensure_owner_token_go, hni, prompt_owner_token, prompt,
          Bool.not_false, if_true, if_false, Bool.false_eq_true] at h
        by_cases hemp : (rust_trim (read_line stdin).1).isEmpty = true
        · rw [if_pos hemp] at h
          obtain ⟨o₀, ho, -⟩ := map_prepend_ret h
          exact ih none (read_line stdin).2 t s o₀ ho
        · rw [if_neg hemp] at h
          simp only [Option.some.injEq, CliOutcome.ret.injEq] at h
          rw [h.1] at hemp
          simpa using hemp
    | some t₀ =>
      by_cases hemp : t₀.isEmpty = true
      · simp only [ensure_owner_token_go, hemp, if_true] at h
        obtain ⟨o₀, ho, -⟩ := map_prepend_ret h
        exact ih none stdin t s o₀ ho
      · simp only [Bool.not_eq_true] at hemp
        simp only [ensure_owner_token_go, hemp, Bool.false_eq_true, if_false] at h
        simp only [Option.some.injEq, CliOutcome.ret.injEq] at h
        rw [h.1] at hemp
        exact hemp

/-- With only blank input available, the `ensure_owner_token` loop never
breaks: it consumes its whole fuel re-prompting. -/
theorem ensure_owner_token_go_all_empty (m : MainMatcher) (hni : m.no_interact = false) :
    ∀ fuel stdin, (∀ l ∈ stdin, rust_trim l = "") →
      ensure_owner_token_go m fuel none stdin = none := by
  intro fuel
  induction fuel with
  | zero => intro stdin hall; rfl
  | succ fuel ih =>
    intro stdin hall
    cases stdin with
    | nil =>
      simp [ensure_owner_token_go, hni, prompt_owner_token, prompt, read_line,
        rust_trim_empty, string_empty_isEmpty, ih [] (by simp)]
    | cons l ls =>
      have hl : rust_trim l = "" := hall l (by simp)
      simp [ensure_owner_token_go, hni, prompt_owner_token, prompt, read_line, hl,
        string_empty_isEmpty, ih ls (fun x hx => hall x (by simp [hx]))]

/-- Claim C5: `ensure_owner_token` never returns while the token is empty:
every normal return carries a non-empty token; an empty input is rejected
(the rejection message is printed and the loop re-prompts on the remaining
input); and when every available input is blank the loop never returns, for
any amount of fuel. -/
theorem ensure_owner_token_nonempty :
    (∀ (m : MainMatcher) fuel token stdin t stdin' out,
        ensure_owner_token fuel token m stdin = some (CliOutcome.ret t stdin' out) →
        t.isEmpty = false) ∧
    (∀ (m : MainMatcher), m.no_interact = false → ∀ fuel rest,
        ensure_owner_token_go m (fuel + 1) none ("" :: rest) =
          (ensure_owner_token_go m fuel none rest).map
            (CliOutcome.prepend [.err "Owner token: ", .err empty_token_line])) ∧
    (∀ (m : MainMatcher), m.no_interact = false → ∀ fuel stdin,
        (∀ l ∈ stdin, rust_trim l = "") →
        ensure_owner_token fuel none m stdin = none) := by
  refine ⟨?_, ?_, ?_⟩
  · intro m fuel token stdin t stdin' out h
    unfold ensure_owner_token at h
    obtain ⟨o₀, ho, -⟩ := map_prepend_ret h
    exact ensure_owner_token_go_ret_nonempty m fuel token stdin t stdin' o₀ ho
  · intro m hni fuel rest
    simp [ensure_owner_token_go, hni, prompt_owner_token, prompt, read_line,
      rust_trim_empty, string_empty_isEmpty, empty_token_line, highlight]
  · intro m hni fuel stdin hall
    unfold ensure_owner_token
    rw [ensure_owner_token_go_all_empty m hni fuel stdin hall]
    rfl

/-- Witness for C5: a non-empty token is returned unchanged, and an
all-blank input stream makes the loop spin without returning. -/
theorem ensure_owner_token_nonempty_witness :
    "tok".isEmpty = false ∧ ensure_owner_token 1 none ⟨false, false, false⟩ [""] = none :=
  ⟨ensure_owner_token_nonempty.1 ⟨false, false, false⟩ 1 none ["tok"] "tok" []
      [.out "The file owner token is required for authentication.", .err ("Owner token" ++ ": ")]
      (by decide),
   ensure_owner_token_nonempty.2.2 ⟨false, false, false⟩ rfl 1 [""] (by decide)⟩

/-- Claim C6: for every message, when `prompt_yes` is called with default
`some true` in interactive mode (neither assume-yes nor no-interact) and
the user enters an empty line, it returns `true` after a single prompt,
consuming exactly that line and printing exactly one prompt. -/
theorem prompt_yes_default_empty (m : MainMatcher) (ha : m.assume_yes = false)
    (hn : m.no_interact = false) (msg : String) (rest : List String) (fuel : ℕ) :
    prompt_yes (fuel + 1) msg (some true) m ("" :: rest) =
      some (.ret true rest [.err (msg ++ " " ++ "[Y/n]" ++ ": ")]) := by
  simp [prompt_yes, prompt_yes_options, prompt, ha, hn, read_line, rust_trim_empty,
    string_empty_isEmpty]

/-- Witness for C6 at a concrete interactive matcher. -/
theorem prompt_yes_default_empty_witness :
    prompt_yes 1 "Continue" (some true) ⟨false, false, false⟩ [""] =
      some (.ret true [] [.err ("Continue" ++ " " ++ "[Y/n]" ++ ": ")]) :=
  prompt_yes_default_empty ⟨false, false, false⟩ rfl rfl "Continue" [] 0

/-- Claim C7: `quit` terminates the process with exit code 0 printing
nothing; `quit_error`, for every error and every hint configuration, first
prints the error, then the configured hints, and terminates the process
with exit code 1; the hint printer prints nothing exactly when no hint is
configured. -/
theorem quit_exit_codes :
    (∀ (α : Type), (quit : CliOutcome α) = .exit 0 []) ∧
    (∀ (α : Type) (causes : List String) (hints : ErrorHints),
        (quit_error causes hints : CliOutcome α) =
          .exit 1 (print_error causes ++ ErrorHints.print hints)) ∧
    (∀ hints : ErrorHints, ErrorHints.print hints = [] ↔ hints.any = false) := by
  refine ⟨fun α => rfl, fun α causes hints => rfl, fun hints => ?_⟩
  by_cases h : hints.any = true
  · simp [ErrorHints.print, h]
  · simp only [Bool.not_eq_true] at h
    simp [ErrorHints.print, h]

/-- Claim C8: when `ensure_password` returns normally, the presence of the
password matches `needs`; and when it already matches on entry, the
function returns immediately with the password unchanged, consuming no
input and printing nothing. -/
theorem ensure_password_correct (password : Option String) (needs : Bool)
    (m : MainMatcher) (stdin : List String) :
    (∀ p' stdin' out,
        ensure_password password needs m stdin = .ret p' stdin' out →
        p'.isSome = needs) ∧
    (password.isSome = needs →
        ensure_password password needs m stdin = .ret password stdin []) := by
  constructor
  · intro p' stdin' out h
    by_cases he : password.isSome = needs
    · simp only [ensure_password, he, beq_self_eq_true, if_true,
        CliOutcome.ret.injEq] at h
      rw [← h.1]
      exact he
    · by_cases hn : needs = true
      · subst hn
        simp only [Bool.not_eq_true] at he
        by_cases hni : m.no_interact = true
        · simp [ensure_password, he, prompt_password, hni, quit_error_msg, quit_error] at h
        · simp only [Bool.not_eq_true] at hni
          simp [ensure_password, he, prompt_password, hni] at h
          obtain ⟨h1, -, -⟩ := h
          subst h1
          rfl
      · simp only [Bool.not_eq_true] at hn
        subst hn
        simp only [Bool.not_eq_false] at he
        simp [ensure_password, he] at h
        obtain ⟨h1, -, -⟩ := h
        subst h1
        rfl
  · intro he
    simp [ensure_password, he]

/-- Witness for C8: a present password with `needs = true` is returned
unchanged, and its presence matches `needs`. -/
theorem ensure_password_correct_witness :
    (some "pw").isSome = true ∧
    ensure_password (some "pw") true ⟨false, false, false⟩ [] = .ret (some "pw") [] [] :=
  ⟨(ensure_password_correct (some "pw") true ⟨false, false, false⟩ []).1 (some "pw") [] []
      ((ensure_password_correct (some "pw") true ⟨false, false, false⟩ []).2 rfl),
   (ensure_password_correct (some "pw") true ⟨false, false, false⟩ []).2 rfl⟩

/-- Claim C9: `check_empty_password` returns normally, with nothing printed
and nothing read, exactly when force mode is set or the password is
non-empty; otherwise it prints an error and a hint suggesting the force
flag and terminates the process with exit code 1. -/
theorem check_empty_password_correct (p : String) (m : MainMatcher) (stdin : List String) :
    (m.force = true ∨ p.isEmpty = false →
      check_empty_password p m stdin = .ret () stdin []) ∧
    (m.force = false → p.isEmpty = true →
      check_empty_password p m stdin =
        .exit 1 [.err "error: An empty password is not supported by the web interface",
          .err "", .err "Use '--force' to force", .err "For more information try '--help'"]) := by
  constructor
  · intro h
    rcases h with h | h <;> simp [check_empty_password, h]
  · intro hf hp
    unfold check_empty_password
    rw [if_pos (by simp [hf, hp])]
    decide

/-- Witness for C9: a non-empty password passes, an empty unforced one
exits with code 1 and the `--force` hint. -/
theorem check_empty_password_correct_witness :
    check_empty_password "secret" ⟨false, false, false⟩ [] = .ret () [] [] ∧
    check_empty_password "" ⟨false, false, false⟩ [] =
      .exit 1 [.err "error: An empty password is not supported by the web interface",
        .err "", .err "Use '--force' to force", .err "For more information try '--help'"] :=
  ⟨(check_empty_password_correct "secret" ⟨false, false, false⟩ []).1 (Or.inr rfl),
   (check_empty_password_correct "" ⟨false, false, false⟩ []).2 rfl rfl⟩

/-- Claim C10: whenever the main matcher reports assume-yes, `prompt_yes`
returns `true` for every message and every default (including `none`),
reading no input and not terminating the process; the assume-yes branch
comes before the no-interact branch, so this holds for every no-interact
setting. -/
theorem prompt_yes_assume_yes (m : MainMatcher) (h : m.assume_yes = true)
    (msg : String) (dflt : Option Bool) (stdin : List String) (fuel : ℕ) :
    prompt_yes (fuel + 1) msg dflt m stdin =
      some (.ret true stdin [.err (msg ++ " " ++ prompt_yes_options dflt ++ ": yes")]) := by
  simp [prompt_yes, h]

/-- Witness for C10 with both assume-yes and no-interact set and no
default: assume-yes wins and input is left unread. -/
theorem prompt_yes_assume_yes_witness :
    prompt_yes 1 "Delete" none ⟨true, true, false⟩ ["input"] =
      some (.ret true ["input"] [.err ("Delete" ++ " " ++ prompt_yes_options none ++ ": yes")]) :=
  prompt_yes_assume_yes ⟨true, true, false⟩ rfl "Delete" none ["input"] 0
